import Mathlib

/-!
Verification of the order-item CRUD router
(`src/site/app/core/routers/order_items.py`).

The router handlers are embedded as pure functions over an explicit
database state.  A transactional session is modelled by threading the
state: every mutating handler returns the state after the request
together with either the response value or the `HTTPException` it
raised.  `commit` may fail with a storage error; this is modelled by an
explicit parameter `commitError : Option String` (`none` = the commit
succeeds, `some e` = an `SQLAlchemyError` with message `e` is raised,
upon which the handler rolls the transaction back, leaving the state as
it was at the start of the request).
-/

/-- Modelled from the spec: `app/core/models/product.py` is not under
`src/`; per §6 a product exposes a primary key and a current `price`
(decimal, modelled as `Rat`). Only these two fields are consumed by the
router. -/
structure Product where
  id : Int
  price : Rat
deriving Repr, DecidableEq

/-- Modelled from the spec: `app/core/models/order_item.py` is not under
`src/`; per §3 an OrderItem has an integer surrogate key `id`, integer
foreign keys `order_id` and `product_id`, an integer `quantity`, and a
decimal `unit_price` column which the spec discusses as possibly null
(`it is never null` is an invariant to prove, not a typing assumption),
hence `Option Rat`. -/
structure OrderItem where
  id : Int
  order_id : Int
  product_id : Int
  quantity : Int
  unit_price : Option Rat
deriving Repr, DecidableEq

/-- `fastapi.HTTPException` as raised by the router: a status code and a
detail string. -/
structure HTTPException where
  status_code : Nat
  detail : String
deriving Repr, DecidableEq

/-- The visible database state consumed by the router: the product table,
the order-item table, and the next surrogate key the storage layer will
assign on insert. -/
structure DB where
  products : List Product
  items : List OrderItem
  nextId : Int
deriving Repr, DecidableEq

/-- Modelled from the spec: `app/core/schemas/order_items.py` is not
under `src/`; per §4.1 the create/update input carries required
`order_id`, `product_id`, `quantity` (and nothing else), so
`item.model_dump()` yields exactly these three fields. -/
structure OrderItemCreateSchema where
  order_id : Int
  product_id : Int
  quantity : Int
deriving Repr, DecidableEq

/-- Modelled from the spec: the partial-update input has the same three
fields, each optional; `model_dump` with only the set fields yields
exactly the fields that are `some` here (§9 prescribes exactly this
present/absent-marker reimplementation of the source's dynamic
`exclude_unset` dict). -/
structure OrderItemPartialUpdateSchema where
  order_id : Option Int
  product_id : Option Int
  quantity : Option Int
deriving Repr, DecidableEq

deriving instance DecidableEq for Except

/-- `session.get(Product, pid)`: primary-key lookup in the product table. -/
def getProduct (db : DB) (pid : Int) : Option Product :=
  db.products.find? (fun p => p.id == pid)

/-- `select(OrderItem).filter(OrderItem.id == item_id) ... .first()` and
`session.get(OrderItem, item_id)`: primary-key lookup in the order-item
table. -/
def getItem (db : DB) (item_id : Int) : Option OrderItem :=
  db.items.find? (fun it => it.id == item_id)

/-- `GET /order_items/`: return all order items (eager loading of the
related order and product does not change which rows are returned). -/
def get_order_items (db : DB) : List OrderItem :=
  db.items

/-- `GET /order_items/{item_id}`: fetch one order item by primary key,
404 when absent. -/
def get_order_item (db : DB) (item_id : Int) : Except HTTPException OrderItem :=
  match getItem db item_id with
  | none =>
      .error ⟨404, "Order item with id=" ++ toString item_id ++ " not found."⟩
  | some existing_item => .ok existing_item

/-- `POST /order_items/`: look the product up (404 before any write when
absent), build the new row with `unit_price := product.price`, insert and
commit; on `SQLAlchemyError` roll back and raise 400. -/
def create_order_item (db : DB) (item : OrderItemCreateSchema)
    (commitError : Option String) : DB × Except HTTPException OrderItem :=
  match getProduct db item.product_id with
  | none =>
      (db, .error ⟨404, "Product with id=" ++ toString item.product_id
        ++ " not found."⟩)
  | some product =>
      let new_item : OrderItem :=
        { id := db.nextId
          order_id := item.order_id
          product_id := item.product_id
          quantity := item.quantity
          unit_price := some product.price }
      match commitError with
      | some e =>
          (db, .error ⟨400, "Error creating order item: " ++ e⟩)
      | none =>
          ({ db with items := db.items ++ [new_item], nextId := db.nextId + 1 },
           .ok new_item)

/-- Overwrite in place the unique row whose id matches (the `setattr`
loop followed by `commit` acting on the fetched row). -/
def writeBack (items : List OrderItem) (item_id : Int)
    (updated : OrderItem) : List OrderItem :=
  items.map (fun it => if it.id == item_id then updated else it)

/-- `PUT /order_items/{item_id}`: fetch the row (404 `"Item not found"`
when absent), overwrite `order_id`, `product_id`, `quantity` from the
full payload (`model_dump()` yields exactly these three; `unit_price` is
not touched), commit; on `SQLAlchemyError` roll back and raise 400 with
`str(e)`. -/
def update_order_item (db : DB) (item_id : Int) (item : OrderItemCreateSchema)
    (commitError : Option String) : DB × Except HTTPException OrderItem :=
  match getItem db item_id with
  | none => (db, .error ⟨404, "Item not found"⟩)
  | some existing_item =>
      let updated : OrderItem :=
        { existing_item with
          order_id := item.order_id
          product_id := item.product_id
          quantity := item.quantity }
      match commitError with
      | some e => (db, .error ⟨400, e⟩)
      | none => ({ db with items := writeBack db.items item_id updated }, .ok updated)

/-- `PATCH /order_items/{item_id}`: fetch the row (404 naming the id when
absent), apply only the fields present in the payload
(`model_dump(exclude_unset=True)`), commit; on `SQLAlchemyError` roll
back and raise 400. -/
def partial_update_order_item (db : DB) (item_id : Int)
    (item : OrderItemPartialUpdateSchema) (commitError : Option String) :
    DB × Except HTTPException OrderItem :=
  match getItem db item_id with
  | none =>
      (db, .error ⟨404, "Order item with id=" ++ toString item_id
        ++ " not found."⟩)
  | some existing_item =>
      let updated : OrderItem :=
        { existing_item with
          order_id := item.order_id.getD existing_item.order_id
          product_id := item.product_id.getD existing_item.product_id
          quantity := item.quantity.getD existing_item.quantity }
      match commitError with
      | some e =>
          (db, .error ⟨400, "Error updating order item: " ++ e⟩)
      | none => ({ db with items := writeBack db.items item_id updated }, .ok updated)

/-- `DELETE /order_items/{item_id}`: fetch the row by primary key (404
naming the id when absent), delete and commit; on `SQLAlchemyError` roll
back and raise 400 with `str(e)`. -/
def delete_order_item (db : DB) (item_id : Int) (commitError : Option String) :
    DB × Except HTTPException Unit :=
  match getItem db item_id with
  | none =>
      (db, .error ⟨404, "Order item with id=" ++ toString item_id
        ++ " not found."⟩)
  | some _ =>
      match commitError with
      | some e => (db, .error ⟨400, e⟩)
      | none =>
          ({ db with items := db.items.filter (fun it => !(it.id == item_id)) },
           .ok ())

/-- The 404 details of the router name the missing id: the substring
`id=<i>` occurs in the detail string. -/
def mentionsId (detail : String) (i : Int) : Prop :=
  ("id=" ++ toString i).data <:+: detail.data

instance (d : String) (i : Int) : Decidable (mentionsId d i) :=
  List.decidableInfix _ _

/- Concrete states used to witness the theorems below. -/

def exProduct : Product := ⟨1, (10 : Rat)⟩

def exDB : DB := ⟨[exProduct], [], 1⟩

def exItem : OrderItem := ⟨5, 1, 1, 3, some (10 : Rat)⟩

def exDB2 : DB := ⟨[exProduct], [exItem], 6⟩

/- Helper lemmas about the primary-key lookup and the write-back. -/

lemma getItem_id_eq {db : DB} {i : Int} {it : OrderItem}
    (h : getItem db i = some it) : it.id = i := by
  have h' : db.items.find? (fun x => x.id == i) = some it := h
  simpa using List.find?_some h'

lemma find?_writeBack {l : List OrderItem} {i : Int} {e : OrderItem}
    (h : l.find? (fun it => it.id == i) = some e) (u : OrderItem)
    (hu : u.id = i) :
    (writeBack l i u).find? (fun it => it.id == i) = some u := by
  induction l with
  | nil => simp at h
  | cons a t ih =>
    by_cases ha : a.id = i
    · simp [writeBack, List.find?, ha, hu]
    · have ha' : (a.id == i) = false := by simp [ha]
      rw [List.find?_cons_of_neg _ (by simp [ha])] at h
      simpa [writeBack, List.find?, ha'] using ih h

lemma find?_filter_ne (l : List OrderItem) (i : Int) :
    (l.filter (fun it => !(it.id == i))).find? (fun it => it.id == i) = none := by
  rw [List.find?_eq_none]
  intro a ha
  rw [List.mem_filter] at ha
  simpa using ha.2

lemma writeBack_self {l : List OrderItem} {i : Int} {e : OrderItem}
    (hnd : (l.map OrderItem.id).Nodup)
    (h : l.find? (fun it => it.id == i) = some e) :
    writeBack l i e = l := by
  have he : e ∈ l := List.mem_of_find?_eq_some h
  have hei : e.id = i := by simpa using List.find?_some h
  have hcong : ∀ a ∈ l, (if a.id == i then e else a) = a := by
    intro a ha
    by_cases h2 : a.id = i
    · have : a = e :=
        List.inj_on_of_nodup_map hnd ha he (by rw [h2, hei])
      simp [h2, this]
    · simp [h2]
  have h3 : l.map (fun a => if a.id == i then e else a) = l.map (fun a => a) :=
    List.map_congr_left hcong
  simpa [writeBack] using h3

/-- C1: for every valid create request whose `product_id` resolves to an
existing product with price `p`, `create_order_item` returns a created
item whose `unit_price` is `some p` — set (never null) and independent of
the supplied `quantity`. -/
theorem create_price_capture (db : DB) (item : OrderItemCreateSchema)
    (product : Product) (ce : Option String) (r : OrderItem)
    (hp : getProduct db item.product_id = some product)
    (hr : (create_order_item db item ce).2 = .ok r) :
    r.unit_price = some product.price := by
  unfold create_order_item at hr
  rw [hp] at hr
  cases ce with
  | some e => simp at hr
  | none =>
    simp at hr
    rw [← hr]

theorem create_price_capture_witness :
    (OrderItem.mk 1 1 1 3 (some (10 : Rat))).unit_price = some exProduct.price :=
  create_price_capture exDB ⟨1, 1, 3⟩ exProduct none
    ⟨1, 1, 1, 3, some (10 : Rat)⟩ (by decide) (by decide)

/-- C2: neither `update_order_item` nor `partial_update_order_item`
recomputes `unit_price`: whatever payload (in particular a changed
`product_id`) and commit outcome, a successful response carries the
existing item's `unit_price` unchanged. -/
theorem update_price_freeze (db : DB) (item_id : Int) (existing : OrderItem)
    (itemU : OrderItemCreateSchema) (itemP : OrderItemPartialUpdateSchema)
    (ceU ceP : Option String)
    (h : getItem db item_id = some existing) :
    (∀ r, (update_order_item db item_id itemU ceU).2 = .ok r →
        r.unit_price = existing.unit_price) ∧
    (∀ r, (partial_update_order_item db item_id itemP ceP).2 = .ok r →
        r.unit_price = existing.unit_price) := by
  constructor
  · intro r hr
    unfold update_order_item at hr
    rw [h] at hr
    cases ceU with
    | some e => simp at hr
    | none =>
      simp at hr
      rw [← hr]
  · intro r hr
    unfold partial_update_order_item at hr
    rw [h] at hr
    cases ceP with
    | some e => simp at hr
    | none =>
      simp at hr
      rw [← hr]

theorem update_price_freeze_witness :
    (OrderItem.mk 5 2 1 7 (some (10 : Rat))).unit_price = exItem.unit_price :=
  (update_price_freeze exDB2 5 exItem ⟨2, 1, 7⟩ ⟨none, none, some 7⟩ none none
    (by decide)).1 ⟨5, 2, 1, 7, some (10 : Rat)⟩ (by decide)

/-- C3: a create whose `product_id` resolves to no product raises 404
("Product ... not found") before any write: the state is returned
untouched, so the list endpoint is unchanged. -/
theorem create_missing_product (db : DB) (item : OrderItemCreateSchema)
    (ce : Option String) (h : getProduct db item.product_id = none) :
    create_order_item db item ce =
      (db, .error ⟨404, "Product with id=" ++ toString item.product_id
        ++ " not found."⟩) ∧
    get_order_items (create_order_item db item ce).1 = get_order_items db := by
  unfold create_order_item
  rw [h]
  exact ⟨rfl, rfl⟩

theorem create_missing_product_witness :
    create_order_item exDB ⟨1, 2, 3⟩ none =
      (exDB, .error ⟨404, "Product with id=" ++ toString (2 : Int)
        ++ " not found."⟩) ∧
    get_order_items (create_order_item exDB ⟨1, 2, 3⟩ none).1 =
      get_order_items exDB :=
  create_missing_product exDB ⟨1, 2, 3⟩ none (by decide)

/-- C4: create is atomic — on success exactly one row, the returned one,
is appended to the order-item table; on every failure (missing product or
storage error at commit, which is rolled back) the state is exactly the
pre-request state, so no attempted row is visible via the list endpoint. -/
theorem create_atomic (db : DB) (item : OrderItemCreateSchema)
    (ce : Option String) :
    (∀ r, (create_order_item db item ce).2 = .ok r →
        (create_order_item db item ce).1.items = db.items ++ [r]) ∧
    (∀ e, (create_order_item db item ce).2 = .error e →
        (create_order_item db item ce).1 = db) := by
  cases hp : getProduct db item.product_id with
  | none =>
    refine ⟨fun r hr => ?_, fun e he => ?_⟩
    · simp [create_order_item, hp] at hr
    · simp [create_order_item, hp]
  | some product =>
    cases ce with
    | some msg =>
      refine ⟨fun r hr => ?_, fun e he => ?_⟩
      · simp [create_order_item, hp] at hr
      · simp [create_order_item, hp]
    | none =>
      refine ⟨fun r hr => ?_, fun e he => ?_⟩
      · simp only [create_order_item, hp] at hr ⊢
        simp at hr
        rw [← hr]
      · simp [create_order_item, hp] at he

theorem create_atomic_witness :
    (create_order_item exDB ⟨1, 1, 3⟩ (some "boom")).1 = exDB :=
  (create_atomic exDB ⟨1, 1, 3⟩ (some "boom")).2
    ⟨400, "Error creating order item: " ++ "boom"⟩ (by decide)

/-- C5: partial update applies exactly the fields present in the payload:
each absent (`none`) field keeps the previous value, a present `quantity`
is applied, and `id` and `unit_price` are always untouched. -/
theorem partial_update_only_present_fields (db : DB) (item_id : Int)
    (existing : OrderItem) (item : OrderItemPartialUpdateSchema)
    (ce : Option String) (r : OrderItem)
    (h : getItem db item_id = some existing)
    (hr : (partial_update_order_item db item_id item ce).2 = .ok r) :
    (item.order_id = none → r.order_id = existing.order_id) ∧
    (item.product_id = none → r.product_id = existing.product_id) ∧
    (item.quantity = none → r.quantity = existing.quantity) ∧
    (∀ q, item.quantity = some q → r.quantity = q) ∧
    r.unit_price = existing.unit_price ∧
    r.id = existing.id := by
  unfold partial_update_order_item at hr
  rw [h] at hr
  cases ce with
  | some e => simp at hr
  | none =>
    simp at hr
    rw [← hr]
    refine ⟨fun h1 => ?_, fun h2 => ?_, fun h3 => ?_, fun q hq => ?_, rfl, rfl⟩
    · simp [h1]
    · simp [h2]
    · simp [h3]
    · simp [hq]

theorem partial_update_only_present_fields_witness :
    (OrderItem.mk 5 1 1 7 (some (10 : Rat))).unit_price = exItem.unit_price :=
  (partial_update_only_present_fields exDB2 5 exItem ⟨none, none, some 7⟩ none
    ⟨5, 1, 1, 7, some (10 : Rat)⟩ (by decide) (by decide)).2.2.2.2.1

/-- C6: full update overwrites `order_id`, `product_id` and `quantity`
with the supplied values (the input schema requires all three), and on
success the stored row under that id is exactly the returned item. -/
theorem update_full_replace (db : DB) (item_id : Int) (existing : OrderItem)
    (item : OrderItemCreateSchema) (ce : Option String) (r : OrderItem)
    (h : getItem db item_id = some existing)
    (hr : (update_order_item db item_id item ce).2 = .ok r) :
    r.order_id = item.order_id ∧ r.product_id = item.product_id ∧
    r.quantity = item.quantity ∧
    getItem (update_order_item db item_id item ce).1 item_id = some r := by
  have hid : existing.id = item_id := getItem_id_eq h
  unfold update_order_item at hr ⊢
  rw [h] at hr ⊢
  cases ce with
  | some e => simp at hr
  | none =>
    simp at hr
    rw [← hr]
    refine ⟨rfl, rfl, rfl, ?_⟩
    exact find?_writeBack h _ hid

theorem update_full_replace_witness :
    (OrderItem.mk 5 2 9 7 (some (10 : Rat))).order_id =
      (OrderItemCreateSchema.mk 2 9 7).order_id :=
  (update_full_replace exDB2 5 exItem ⟨2, 9, 7⟩ none
    ⟨5, 2, 9, 7, some (10 : Rat)⟩ (by decide) (by decide)).1

/-- C7: the single-item endpoint returns the stored row with the looked-up
primary key when one exists, and raises 404 exactly when no row with that
id exists. -/
theorem get_order_item_spec (db : DB) (item_id : Int) :
    (∀ it, getItem db item_id = some it → get_order_item db item_id = .ok it) ∧
    ((∃ e, get_order_item db item_id = .error e ∧ e.status_code = 404) ↔
      getItem db item_id = none) := by
  cases hg : getItem db item_id with
  | none =>
    refine ⟨fun it hit => ?_, ?_⟩
    · exact absurd hit (by simp [hg])
    · refine ⟨fun _ => rfl, fun _ => ?_⟩
      exact ⟨⟨404, "Order item with id=" ++ toString item_id ++ " not found."⟩,
        by simp [get_order_item, hg], rfl⟩
  | some it0 =>
    refine ⟨fun it hit => ?_, ?_⟩
    · obtain rfl : it0 = it := Option.some.inj hit
      simp [get_order_item, hg]
    · constructor
      · rintro ⟨e, he, h404⟩
        simp [get_order_item, hg] at he
      · intro hcontra
        exact absurd hcontra (by simp [hg])

theorem get_order_item_spec_witness :
    get_order_item exDB2 5 = .ok exItem :=
  (get_order_item_spec exDB2 5).1 exItem (by decide)

/-- C8: once a delete succeeds, the row is gone for good: a subsequent get
on the same id raises 404, and a second delete also raises 404 (never a
silent success), whatever the commit outcome of that second call. -/
theorem delete_visibility (db : DB) (item_id : Int) (db' : DB)
    (h : delete_order_item db item_id none = (db', .ok ())) :
    get_order_item db' item_id =
      .error ⟨404, "Order item with id=" ++ toString item_id
        ++ " not found."⟩ ∧
    ∀ ce, delete_order_item db' item_id ce =
      (db', .error ⟨404, "Order item with id=" ++ toString item_id
        ++ " not found."⟩) := by
  cases hg : getItem db item_id with
  | none =>
    unfold delete_order_item at h
    rw [hg] at h
    simp at h
  | some it =>
    unfold delete_order_item at h
    rw [hg] at h
    simp [Prod.ext_iff] at h
    have hnone : getItem db' item_id = none := by
      rw [← h]
      exact find?_filter_ne db.items item_id
    constructor
    · unfold get_order_item
      rw [hnone]
    · intro ce
      unfold delete_order_item
      rw [hnone]

theorem delete_visibility_witness :
    get_order_item ⟨[exProduct], [], 6⟩ 5 =
      .error ⟨404, "Order item with id=" ++ toString (5 : Int)
        ++ " not found."⟩ :=
  (delete_visibility exDB2 5 ⟨[exProduct], [], 6⟩ (by decide)).1

/- Substring facts for the 404 messages. -/

lemma mentionsId_of_data (d : String) (i : Int) (s t : List Char)
    (h : d.data = s ++ ("id=" ++ toString i).data ++ t) : mentionsId d i :=
  ⟨s, t, h.symm⟩

lemma mentionsId_order_item (i : Int) :
    mentionsId ("Order item with id=" ++ toString i ++ " not found.") i := by
  apply mentionsId_of_data _ _ "Order item with ".data " not found.".data
  have hlit : "Order item with ".data ++ "id=".data =
      "Order item with id=".data := by decide
  simp [String.data_append, ← hlit]

lemma mentionsId_product (i : Int) :
    mentionsId ("Product with id=" ++ toString i ++ " not found.") i := by
  apply mentionsId_of_data _ _ "Product with ".data " not found.".data
  have hlit : "Product with ".data ++ "id=".data =
      "Product with id=".data := by decide
  simp [String.data_append, ← hlit]

/- Per-handler outcome equations, by case on the lookup and the commit. -/

lemma partial_update_404 (db : DB) (i : Int) (p : OrderItemPartialUpdateSchema)
    (ce : Option String) (hg : getItem db i = none) :
    (partial_update_order_item db i p ce).2 =
      .error ⟨404, "Order item with id=" ++ toString i ++ " not found."⟩ := by
  unfold partial_update_order_item
  rw [hg]

lemma partial_update_ok (db : DB) (i : Int) (p : OrderItemPartialUpdateSchema)
    {it : OrderItem} (hg : getItem db i = some it) :
    (partial_update_order_item db i p none).2 =
      .ok { it with
        order_id := p.order_id.getD it.order_id
        product_id := p.product_id.getD it.product_id
        quantity := p.quantity.getD it.quantity } := by
  unfold partial_update_order_item
  rw [hg]

lemma partial_update_400 (db : DB) (i : Int) (p : OrderItemPartialUpdateSchema)
    (msg : String) {it : OrderItem} (hg : getItem db i = some it) :
    (partial_update_order_item db i p (some msg)).2 =
      .error ⟨400, "Error updating order item: " ++ msg⟩ := by
  unfold partial_update_order_item
  rw [hg]

lemma update_404 (db : DB) (i : Int) (c : OrderItemCreateSchema)
    (ce : Option String) (hg : getItem db i = none) :
    (update_order_item db i c ce).2 = .error ⟨404, "Item not found"⟩ := by
  unfold update_order_item
  rw [hg]

lemma update_ok (db : DB) (i : Int) (c : OrderItemCreateSchema)
    {it : OrderItem} (hg : getItem db i = some it) :
    (update_order_item db i c none).2 =
      .ok { it with
        order_id := c.order_id
        product_id := c.product_id
        quantity := c.quantity } := by
  unfold update_order_item
  rw [hg]

lemma update_400 (db : DB) (i : Int) (c : OrderItemCreateSchema) (msg : String)
    {it : OrderItem} (hg : getItem db i = some it) :
    (update_order_item db i c (some msg)).2 = .error ⟨400, msg⟩ := by
  unfold update_order_item
  rw [hg]

lemma delete_404 (db : DB) (i : Int) (ce : Option String)
    (hg : getItem db i = none) :
    (delete_order_item db i ce).2 =
      .error ⟨404, "Order item with id=" ++ toString i ++ " not found."⟩ := by
  unfold delete_order_item
  rw [hg]

lemma delete_ok (db : DB) (i : Int) {it : OrderItem}
    (hg : getItem db i = some it) :
    (delete_order_item db i none).2 = .ok () := by
  unfold delete_order_item
  rw [hg]

lemma delete_400 (db : DB) (i : Int) (msg : String) {it : OrderItem}
    (hg : getItem db i = some it) :
    (delete_order_item db i (some msg)).2 = .error ⟨400, msg⟩ := by
  unfold delete_order_item
  rw [hg]

lemma create_404 (db : DB) (c : OrderItemCreateSchema) (ce : Option String)
    (hp : getProduct db c.product_id = none) :
    (create_order_item db c ce).2 =
      .error ⟨404, "Product with id=" ++ toString c.product_id
        ++ " not found."⟩ := by
  unfold create_order_item
  rw [hp]

lemma create_ok (db : DB) (c : OrderItemCreateSchema) {product : Product}
    (hp : getProduct db c.product_id = some product) :
    (create_order_item db c none).2 =
      .ok ⟨db.nextId, c.order_id, c.product_id, c.quantity,
        some product.price⟩ := by
  unfold create_order_item
  rw [hp]

lemma create_400 (db : DB) (c : OrderItemCreateSchema) (msg : String)
    {product : Product} (hp : getProduct db c.product_id = some product) :
    (create_order_item db c (some msg)).2 =
      .error ⟨400, "Error creating order item: " ++ msg⟩ := by
  unfold create_order_item
  rw [hp]

lemma get_order_item_404 (db : DB) (i : Int) (hg : getItem db i = none) :
    get_order_item db i =
      .error ⟨404, "Order item with id=" ++ toString i ++ " not found."⟩ := by
  unfold get_order_item
  rw [hg]

lemma get_order_item_ok (db : DB) (i : Int) {it : OrderItem}
    (hg : getItem db i = some it) :
    get_order_item db i = .ok it := by
  unfold get_order_item
  rw [hg]

/-- C9 as stated is false: the PUT handler's 404 detail is the fixed
string `"Item not found"`, which does not name the missing id. -/
theorem update_404_message_counterexample :
    (update_order_item ⟨[], [], 1⟩ 7 ⟨1, 1, 1⟩ none).2 =
      .error ⟨404, "Item not found"⟩ ∧
    ¬ mentionsId "Item not found" 7 :=
  ⟨by decide, by decide⟩

/-- C9 (amended): every 404 raised by the router names the missing
resource, and — except for the PUT handler, whose 404 detail is the fixed
string "Item not found" — also names its id; every storage error on a
mutating operation is surfaced as a 400 carrying the underlying storage
error message, so the two failure kinds stay machine-distinguishable. -/
theorem error_status_mapping (db : DB) (item_id : Int)
    (c : OrderItemCreateSchema) (p : OrderItemPartialUpdateSchema)
    (msg : String) :
    (∀ e, get_order_item db item_id = .error e →
        e.status_code = 404 ∧ mentionsId e.detail item_id) ∧
    (∀ e, (partial_update_order_item db item_id p none).2 = .error e →
        e.status_code = 404 ∧ mentionsId e.detail item_id) ∧
    (∀ e, (delete_order_item db item_id none).2 = .error e →
        e.status_code = 404 ∧ mentionsId e.detail item_id) ∧
    (∀ e, (create_order_item db c none).2 = .error e →
        e.status_code = 404 ∧ mentionsId e.detail c.product_id) ∧
    (∀ e, (update_order_item db item_id c none).2 = .error e →
        e.status_code = 404 ∧ e.detail = "Item not found") ∧
    (∀ existing, getItem db item_id = some existing →
        (update_order_item db item_id c (some msg)).2 = .error ⟨400, msg⟩ ∧
        (partial_update_order_item db item_id p (some msg)).2 =
          .error ⟨400, "Error updating order item: " ++ msg⟩ ∧
        (delete_order_item db item_id (some msg)).2 = .error ⟨400, msg⟩) ∧
    (∀ product, getProduct db c.product_id = some product →
        (create_order_item db c (some msg)).2 =
          .error ⟨400, "Error creating order item: " ++ msg⟩) := by
  refine ⟨?_, ?_, ?_, ?_, ?_, ?_, ?_⟩
  · intro e he
    cases hg : getItem db item_id with
    | none =>
      rw [get_order_item_404 db item_id hg] at he
      obtain rfl := Except.error.inj he
      exact ⟨rfl, mentionsId_order_item item_id⟩
    | some it0 =>
      rw [get_order_item_ok db item_id hg] at he
      simp at he
  · intro e he
    cases hg : getItem db item_id with
    | none =>
      rw [partial_update_404 db item_id p none hg] at he
      obtain rfl := Except.error.inj he
      exact ⟨rfl, mentionsId_order_item item_id⟩
    | some it0 =>
      rw [partial_update_ok db item_id p hg] at he
      simp at he
  · intro e he
    cases hg : getItem db item_id with
    | none =>
      rw [delete_404 db item_id none hg] at he
      obtain rfl := Except.error.inj he
      exact ⟨rfl, mentionsId_order_item item_id⟩
    | some it0 =>
      rw [delete_ok db item_id hg] at he
      simp at he
  · intro e he
    cases hp : getProduct db c.product_id with
    | none =>
      rw [create_404 db c none hp] at he
      obtain rfl := Except.error.inj he
      exact ⟨rfl, mentionsId_product c.product_id⟩
    | some product =>
      rw [create_ok db c hp] at he
      simp at he
  · intro e he
    cases hg : getItem db item_id with
    | none =>
      rw [update_404 db item_id c none hg] at he
      obtain rfl := Except.error.inj he
      exact ⟨rfl, rfl⟩
    | some it0 =>
      rw [update_ok db item_id c hg] at he
      simp at he
  · intro existing hex
    exact ⟨update_400 db item_id c msg hex,
      partial_update_400 db item_id p msg hex,
      delete_400 db item_id msg hex⟩
  · intro product hp
    exact create_400 db c msg hp

theorem error_status_mapping_witness :
    (HTTPException.mk 404 ("Order item with id=" ++ toString (3 : Int)
      ++ " not found.")).status_code = 404 ∧
    mentionsId (HTTPException.mk 404 ("Order item with id="
      ++ toString (3 : Int) ++ " not found.")).detail 3 :=
  (error_status_mapping exDB 3 ⟨1, 1, 1⟩ ⟨none, none, none⟩ "boom").1
    ⟨404, "Order item with id=" ++ toString (3 : Int) ++ " not found."⟩
    (by decide)

/-- C10: a partial update with an empty payload (no fields set) on an
existing item is an identity when primary keys are unique: the state is
unchanged and the returned item is exactly the stored one (all four
fields keep their previous values). -/
theorem partial_update_empty_identity (db : DB) (item_id : Int) (db' : DB)
    (r : OrderItem)
    (hnd : (db.items.map OrderItem.id).Nodup)
    (h : partial_update_order_item db item_id ⟨none, none, none⟩ none =
      (db', .ok r)) :
    db' = db ∧ getItem db item_id = some r := by
  cases hg : getItem db item_id with
  | none =>
    unfold partial_update_order_item at h
    rw [hg] at h
    simp [Prod.ext_iff] at h
  | some existing =>
    unfold partial_update_order_item at h
    rw [hg] at h
    simp [Prod.ext_iff] at h
    obtain ⟨h1, h2⟩ := h
    have hw : writeBack db.items item_id existing = db.items :=
      writeBack_self hnd hg
    have heta : OrderItem.mk existing.id existing.order_id
        existing.product_id existing.quantity existing.unit_price =
        existing := rfl
    have hr2 : existing = r := heta.symm.trans h2
    constructor
    · rw [← h1, heta, hw]
    · exact congrArg Option.some hr2

theorem partial_update_empty_identity_witness :
    exDB2 = exDB2 ∧ getItem exDB2 5 = some exItem :=
  partial_update_empty_identity exDB2 5 exDB2 exItem (by decide) (by decide)
